import Mathlib

/-!
# Verification of `securesystemslib/interface.py`

A shallow embedding of the key-provisioning interface of `securesystemslib`
(`src/securesystemslib/interface.py`) together with theorems settling the
specification claims about it.

Modelling conventions:

* A Python key dictionary (`RSAKEY_SCHEMA` / `ED25519KEY_SCHEMA` /
  `ECDSAKEY_SCHEMA`) is the structure `KeyDict` with a nested `KeyVal`.
* External collaborators that live outside `interface.py`
  (`securesystemslib.keys.generate_*`, `create_rsa_encrypted_pem`,
  `encrypt_key`, `decrypt_key`, `import_rsakey_from_private_pem`, and the
  schema validators of `securesystemslib.formats`) are passed in as explicit
  function parameters, mirroring the capability-interface factoring the spec
  recommends.  Exceptions they may raise become `Except Err`.
* Interactive prompting (`_get_password`) is modelled twice: the function
  `get_password` embeds the retry loop of `_get_password` over a finite list
  of terminal entries, and each embedded entry point records the prompt calls
  it would make (`PromptCall`, including the `confirm` flag it passes) while
  taking the eventually-entered password as the parameter `prompted`.
* File-system effects are reified as a trace of `FsOp` operations in the
  order the source performs them; `runOps` interprets a trace against a
  `DiskState`.  `securesystemslib.util.TempFile` is not under `src/`, so its
  write/move discipline is modelled from the spec (see `FsOp`).
-/

set_option autoImplicit false

namespace SSLib

/-- The `keyval` sub-dictionary of a key: `{public: ..., private: ...}`. -/
structure KeyVal where
  publicPart : String
  privatePart : String
deriving DecidableEq, Repr

/-- A key dictionary as produced by `securesystemslib.keys.generate_*`:
`{keytype, scheme, keyid, keyval}`. -/
structure KeyDict where
  keytype : String
  scheme : String
  keyid : String
  keyval : KeyVal
deriving DecidableEq, Repr

/-- The two exception kinds of the library that the interface propagates:
`securesystemslib.exceptions.FormatError` and `CryptoError`. -/
inductive Err where
  | formatError (msg : String)
  | cryptoError (msg : String)
deriving DecidableEq, Repr

/-- A record of one call to `_get_password`: the prompt message shown and the
`confirm` flag passed. -/
structure PromptCall where
  message : String
  confirm : Bool
deriving DecidableEq, Repr

/-- Modelled from the spec: `securesystemslib.util.TempFile` is code of this
repository that is not under `src/`.  Per the spec, every write goes through
scoped acquisition of a temporary file (`tmpNew`), writing contents into it
(`tmpWrite`), and an atomic rename into the final destination (`tmpMove`);
a temporary file discarded before `tmpMove` never affects any destination. -/
inductive FsOp where
  | tmpNew
  | tmpWrite (chunk : String)
  | tmpMove (dest : String)
deriving DecidableEq, Repr

/-- Observable file-system state: the contents at each final path, plus the
contents of the currently open temporary file. -/
structure DiskState where
  files : String → Option String
  tmpBuf : String

/-- Interpret one file-system operation. -/
def applyOp (s : DiskState) : FsOp → DiskState
  | .tmpNew => { s with tmpBuf := "" }
  | .tmpWrite c => { s with tmpBuf := s.tmpBuf ++ c }
  | .tmpMove d =>
      { files := fun q => if q = d then some s.tmpBuf else s.files q
        tmpBuf := "" }

/-- Interpret a trace of file-system operations in order. -/
def runOps (s : DiskState) : List FsOp → DiskState
  | [] => s
  | op :: rest => runOps (applyOp s op) rest

/-- The schema validators of `securesystemslib.formats` consumed by
`interface.py`, treated as boolean gates (external collaborators). -/
structure Formats where
  rsakeybits_ok : Nat → Bool
  path_ok : String → Bool
  password_ok : String → Bool
  rsa_scheme_ok : String → Bool

/-- `_get_password(prompt, confirm)` over a finite list of terminal entries.
With `confirm = false` the first entry is returned at once.  With
`confirm = true` the loop reads two entries per iteration, returns the first
of a matching pair, and prints a mismatch notice and retries otherwise; the
returned `Nat` counts the mismatch notices printed.  `none` models the loop
still waiting for input when the entry list is exhausted. -/
def get_password : Bool → List String → Option (String × Nat)
  | _, [] => none
  | false, p :: _ => some (p, 0)
  | true, [_] => none
  | true, p :: p2 :: rest =>
      if p = p2 then some (p, 0)
      else (get_password true rest).map (fun r => (r.1, r.2 + 1))

/-- `os.path.basename` for the slash-separated paths used here. -/
def os_path_basename (p : String) : String :=
  ((p.splitOn "/").reverse).headD ""

/-- `colorama.Fore.RED`. -/
def Fore_RED : String := "\x1b[31m"

/-- `colorama.Fore.RESET`. -/
def Fore_RESET : String := "\x1b[39m"

/-- The filepath defaulting common to the three creation functions:
`if not filepath: filepath = os.path.join(os.getcwd(), key[keyid])`.
Python treats both `None` and the empty string as falsy. -/
def effective_filepath (cwd keyid : String) : Option String → String
  | none => cwd ++ "/" ++ keyid
  | some s => if s = "" then cwd ++ "/" ++ keyid else s

instance exceptDecEq {ε α : Type} [DecidableEq ε] [DecidableEq α] :
    DecidableEq (Except ε α) := fun x y =>
  match x, y with
  | .error a, .error b =>
      if h : a = b then .isTrue (congrArg Except.error h)
      else .isFalse (fun c => h (Except.error.inj c))
  | .ok a, .ok b =>
      if h : a = b then .isTrue (congrArg Except.ok h)
      else .isFalse (fun c => h (Except.ok.inj c))
  | .error _, .ok _ => .isFalse (fun c => Except.noConfusion c)
  | .ok _, .error _ => .isFalse (fun c => Except.noConfusion c)

/-- Result of an embedded `generate_and_write_*_keypair` call: the prompt
calls made, the file-system operation trace, and the returned filepath or the
exception raised. -/
structure GenResult where
  prompts : List PromptCall
  ops : List FsOp
  result : Except Err String
deriving DecidableEq, Repr

/-- `generate_and_write_rsa_keypair(filepath, bits, password)`
(`interface.py` lines 108-213).  `rsa_key` is the value returned by the
external `securesystemslib.keys.generate_rsa_key(bits)`;
`create_rsa_encrypted_pem` is the external encryption primitive; `prompted`
is the password the interactive `_get_password(..., confirm=False)` session
would return when `password is None`. -/
def generate_and_write_rsa_keypair
    (fmts : Formats) (cwd : String)
    (rsa_key : KeyDict)
    (create_rsa_encrypted_pem : String → String → Except Err String)
    (prompted : String)
    (filepath : Option String) (bits : Nat) (password : Option String) :
    GenResult :=
  if fmts.rsakeybits_ok bits then
    let publicVal := rsa_key.keyval.publicPart
    let privateVal := rsa_key.keyval.privatePart
    let fp := effective_filepath cwd rsa_key.keyid filepath
    if fmts.path_ok fp then
      let prompts : List PromptCall :=
        match password with
        | none =>
            [⟨"Enter a password for the encrypted RSA key (" ++ Fore_RED ++
              os_path_basename fp ++ Fore_RESET ++ "): ", false⟩]
        | some _ => []
      let pw := password.getD prompted
      if fmts.password_ok pw then
        match (if pw.length ≠ 0 then create_rsa_encrypted_pem privateVal pw
               else Except.ok privateVal) with
        | .error e => ⟨prompts, [], .error e⟩
        | .ok privPayload =>
            ⟨prompts,
             [.tmpNew, .tmpWrite publicVal, .tmpMove (fp ++ ".pub"),
              .tmpNew, .tmpWrite privPayload, .tmpMove fp],
             .ok fp⟩
      else ⟨prompts, [], .error (.formatError "PASSWORD_SCHEMA")⟩
    else ⟨[], [], .error (.formatError "PATH_SCHEMA")⟩
  else ⟨[], [], .error (.formatError "RSAKEYBITS_SCHEMA")⟩

/-- Modelled from the spec: `securesystemslib.keys.format_keyval_to_metadata`
is code of this repository that is not under `src/`.  Per the spec, with
`private=False` (the only way `interface.py` calls it) the public half is
wrapped in the envelope `{keytype, scheme, keyval: {public}}`, with no
`keyid` and the private field excluded. -/
structure PublicMetadata where
  keytype : String
  scheme : String
  publicPart : String
deriving DecidableEq, Repr

/-- Modelled from the spec: the `private=False` branch of
`securesystemslib.keys.format_keyval_to_metadata` keeps only `keytype`,
`scheme` and `keyval.public`. -/
def format_keyval_to_metadata (keytype scheme : String) (keyval : KeyVal) :
    PublicMetadata :=
  ⟨keytype, scheme, keyval.publicPart⟩

/-- `json.dumps` of the public metadata envelope. -/
def json_dumps (m : PublicMetadata) : String :=
  "\x7b\"keytype\": \"" ++ m.keytype ++ "\", \"scheme\": \"" ++ m.scheme ++
    "\", \"keyval\": \x7b\"public\": \"" ++ m.publicPart ++ "\"\x7d\x7d"

/-- `generate_and_write_ed25519_keypair(filepath, password)`
(`interface.py` lines 346-448).  `ed25519_key` is the value of the external
`securesystemslib.keys.generate_ed25519_key()`; `encrypt_key` is the external
`securesystemslib.keys.encrypt_key`, which may raise a `CryptoError`.  Note
that the public `.pub` file is moved into place before `encrypt_key` runs,
and that a fresh temporary file is acquired before the encryption call
(source lines 440-446). -/
def generate_and_write_ed25519_keypair
    (fmts : Formats) (cwd : String)
    (ed25519_key : KeyDict)
    (encrypt_key : KeyDict → String → Except Err String)
    (prompted : String)
    (filepath : Option String) (password : Option String) : GenResult :=
  let fp := effective_filepath cwd ed25519_key.keyid filepath
  if fmts.path_ok fp then
    let prompts : List PromptCall :=
      match password with
      | none =>
          [⟨"Enter a password for the Ed25519 key (" ++ Fore_RED ++
            os_path_basename fp ++ Fore_RESET ++ "): ", false⟩]
      | some _ => []
    let pw := password.getD prompted
    if fmts.password_ok pw then
      let md := format_keyval_to_metadata ed25519_key.keytype
        ed25519_key.scheme ed25519_key.keyval
      let pubOps : List FsOp :=
        [.tmpNew, .tmpWrite (json_dumps md), .tmpMove (fp ++ ".pub")]
      match encrypt_key ed25519_key pw with
      | .error e => ⟨prompts, pubOps ++ [.tmpNew], .error e⟩
      | .ok encrypted_key =>
          ⟨prompts,
           pubOps ++ [.tmpNew, .tmpWrite encrypted_key, .tmpMove fp],
           .ok fp⟩
    else ⟨prompts, [], .error (.formatError "PASSWORD_SCHEMA")⟩
  else ⟨[], [], .error (.formatError "PATH_SCHEMA")⟩

/-- `generate_and_write_ecdsa_keypair(filepath, password)`
(`interface.py` lines 588-690); structurally identical to the Ed25519
creation path, with the ECDSA generator and prompt text. -/
def generate_and_write_ecdsa_keypair
    (fmts : Formats) (cwd : String)
    (ecdsa_key : KeyDict)
    (encrypt_key : KeyDict → String → Except Err String)
    (prompted : String)
    (filepath : Option String) (password : Option String) : GenResult :=
  let fp := effective_filepath cwd ecdsa_key.keyid filepath
  if fmts.path_ok fp then
    let prompts : List PromptCall :=
      match password with
      | none =>
          [⟨"Enter a password for the ECDSA key (" ++ Fore_RED ++
            os_path_basename fp ++ Fore_RESET ++ "): ", false⟩]
      | some _ => []
    let pw := password.getD prompted
    if fmts.password_ok pw then
      let md := format_keyval_to_metadata ecdsa_key.keytype
        ecdsa_key.scheme ecdsa_key.keyval
      let pubOps : List FsOp :=
        [.tmpNew, .tmpWrite (json_dumps md), .tmpMove (fp ++ ".pub")]
      match encrypt_key ecdsa_key pw with
      | .error e => ⟨prompts, pubOps ++ [.tmpNew], .error e⟩
      | .ok encrypted_key =>
          ⟨prompts,
           pubOps ++ [.tmpNew, .tmpWrite encrypted_key, .tmpMove fp],
           .ok fp⟩
    else ⟨prompts, [], .error (.formatError "PASSWORD_SCHEMA")⟩
  else ⟨[], [], .error (.formatError "PATH_SCHEMA")⟩

/-- A private key object as returned by the Ed25519/ECDSA import routines:
the decrypted key dictionary with `keyid_hash_algorithms` attached from
`securesystemslib.settings.HASH_ALGORITHMS`. -/
structure ImportedKey where
  key : KeyDict
  keyid_hash_algorithms : List String
deriving DecidableEq, Repr

/-- `import_ed25519_privatekey_from_file(filepath, password)`
(`interface.py` lines 504-582).  `file_contents` is what reading `filepath`
yields; `decrypt_key` is the external `securesystemslib.keys.decrypt_key`;
`prompted` is the password the interactive `_get_password(..., confirm=False)`
session would return when `password is None`. -/
def import_ed25519_privatekey_from_file
    (fmts : Formats)
    (hash_algorithms : List String)
    (file_contents : String)
    (decrypt_key : String → String → Except Err KeyDict)
    (prompted : String)
    (filepath : String) (password : Option String) :
    List PromptCall × Except Err ImportedKey :=
  if fmts.path_ok filepath then
    let prompts : List PromptCall :=
      match password with
      | none =>
          [⟨"Enter a password for the encrypted Ed25519 key (" ++ Fore_RED ++
            os_path_basename filepath ++ Fore_RESET ++ "): ", false⟩]
      | some _ => []
    let pw := password.getD prompted
    if fmts.password_ok pw then
      match decrypt_key file_contents pw with
      | .error e => (prompts, .error e)
      | .ok key_object =>
          if key_object.keytype ≠ "ed25519" then
            (prompts, .error (.formatError
              ("Invalid key type loaded: " ++ key_object.keytype)))
          else
            (prompts, .ok ⟨key_object, hash_algorithms⟩)
    else (prompts, .error (.formatError "PASSWORD_SCHEMA"))
  else ([], .error (.formatError "PATH_SCHEMA"))

/-- `import_ecdsa_privatekey_from_file(filepath, password)`
(`interface.py` lines 746-822); structurally identical to the Ed25519
private import, expecting keytype `ecdsa-sha2-nistp256`. -/
def import_ecdsa_privatekey_from_file
    (fmts : Formats)
    (hash_algorithms : List String)
    (file_contents : String)
    (decrypt_key : String → String → Except Err KeyDict)
    (prompted : String)
    (filepath : String) (password : Option String) :
    List PromptCall × Except Err ImportedKey :=
  if fmts.path_ok filepath then
    let prompts : List PromptCall :=
      match password with
      | none =>
          [⟨"Enter a password for the encrypted ECDSA key (" ++ Fore_RED ++
            os_path_basename filepath ++ Fore_RESET ++ "): ", false⟩]
      | some _ => []
    let pw := password.getD prompted
    if fmts.password_ok pw then
      match decrypt_key file_contents pw with
      | .error e => (prompts, .error e)
      | .ok key_object =>
          if key_object.keytype ≠ "ecdsa-sha2-nistp256" then
            (prompts, .error (.formatError
              ("Invalid key type loaded: " ++ key_object.keytype)))
          else
            (prompts, .ok ⟨key_object, hash_algorithms⟩)
    else (prompts, .error (.formatError "PASSWORD_SCHEMA"))
  else ([], .error (.formatError "PATH_SCHEMA"))

/-- `import_rsa_privatekey_from_file(filepath, password, scheme)`
(`interface.py` lines 218-290).  `import_rsakey_from_private_pem` is the
external `securesystemslib.keys.import_rsakey_from_private_pem`, taking the
PEM text, the scheme, and an optional password (the source passes
`password=None` when the resolved password is empty).  Note that, unlike the
Ed25519/ECDSA private imports, the source performs no keytype comparison on
the returned key object. -/
def import_rsa_privatekey_from_file
    (fmts : Formats)
    (file_contents : String)
    (import_rsakey_from_private_pem :
      String → String → Option String → Except Err KeyDict)
    (prompted : String)
    (filepath : String) (password : Option String) (scheme : String) :
    List PromptCall × Except Err KeyDict :=
  if fmts.path_ok filepath then
    if fmts.rsa_scheme_ok scheme then
      let prompts : List PromptCall :=
        match password with
        | none =>
            [⟨"Enter a password for the encrypted RSA file (" ++ Fore_RED ++
              os_path_basename filepath ++ Fore_RESET ++ "): ", false⟩]
        | some _ => []
      let pw := password.getD prompted
      if fmts.password_ok pw then
        if pw.length ≠ 0 then
          (prompts, import_rsakey_from_private_pem file_contents scheme
            (some pw))
        else
          (prompts, import_rsakey_from_private_pem file_contents scheme none)
      else (prompts, .error (.formatError "PASSWORD_SCHEMA"))
    else ([], .error (.formatError "RSA_SCHEME_SCHEMA"))
  else ([], .error (.formatError "PATH_SCHEMA"))

/-! ## Concrete sample data -/

/-- An input stream for the confirmation loop made of `n` non-matching entry
pairs. -/
def mismatch_pairs : Nat → List String
  | 0 => []
  | n + 1 => "0" :: "1" :: mismatch_pairs n

/-- Sample validators that accept everything, for concrete runs. -/
def demoFormats : Formats :=
  ⟨fun _ => true, fun _ => true, fun _ => true, fun _ => true⟩

/-- A sample generated RSA key dictionary. -/
def demoRsaKey : KeyDict :=
  ⟨"rsa", "rsassa-pss-sha256", "ridrsa", ⟨"RSAPUB", "RSAPRIV"⟩⟩

/-- A sample generated Ed25519 key dictionary. -/
def demoEdKey : KeyDict :=
  ⟨"ed25519", "ed25519", "rided", ⟨"EDPUB", "EDPRIV"⟩⟩

/-- A sample generated ECDSA key dictionary. -/
def demoEcKey : KeyDict :=
  ⟨"ecdsa-sha2-nistp256", "ecdsa-sha2-nistp256", "ridec", ⟨"ECPUB", "ECPRIV"⟩⟩

/-- A sample `create_rsa_encrypted_pem` primitive that records its inputs in
its output. -/
def demoEncPem : String → String → Except Err String :=
  fun priv pw => .ok ("RSAENC(" ++ priv ++ "," ++ pw ++ ")")

/-- A sample `encrypt_key` primitive that records its inputs in its output. -/
def demoEncryptKey : KeyDict → String → Except Err String :=
  fun k pw => .ok ("ENC(" ++ k.keyval.privatePart ++ "," ++ pw ++ ")")

/-- A sample `decrypt_key` primitive that records the ciphertext and the
password it was invoked with inside the key object it returns. -/
def demoDecryptKey : String → String → Except Err KeyDict :=
  fun c pw => .ok ⟨"ed25519", "ed25519", "rided", ⟨c, "decrypted-with:" ++ pw⟩⟩

/-- A sample `decrypt_key` primitive returning an ECDSA key object that
records the ciphertext and the password it was invoked with. -/
def demoDecryptKeyEc : String → String → Except Err KeyDict :=
  fun c pw =>
    .ok ⟨"ecdsa-sha2-nistp256", "ecdsa-sha2-nistp256", "ridec",
      ⟨c, "decrypted-with:" ++ pw⟩⟩

/-- A sample `import_rsakey_from_private_pem` primitive recording whether it
was handed a password (decryption requested) or `None` (plaintext parse). -/
def demoImportPem : String → String → Option String → Except Err KeyDict :=
  fun pem scheme pwOpt =>
    .ok ⟨"rsa", scheme, "ridrsa",
      ⟨pem, match pwOpt with | none => "plain" | some pw => "dec:" ++ pw⟩⟩

/-- An empty disk. -/
def emptyDisk : DiskState := ⟨fun _ => none, ""⟩

/-- A creation run is atomic at path `p` when, after interpreting its
file-system trace, `p` either kept its prior contents or holds exactly the
complete contents installed by one full
acquire-temporary / write-contents / rename-into-place sequence of the
trace — never a partially written file. -/
def AtomicAt (r : GenResult) (s₀ : DiskState) (p : String) : Prop :=
  (runOps s₀ r.ops).files p = s₀.files p ∨
  ∃ c, (runOps s₀ r.ops).files p = some c ∧
    List.IsInfix [FsOp.tmpNew, FsOp.tmpWrite c, FsOp.tmpMove p] r.ops

/-! ## Helper lemmas -/

theorem str_empty_append (s : String) : "" ++ s = s := by
  cases s with
  | mk d => rfl

theorem append_pub_ne (s : String) : ¬ (s ++ ".pub" = s) := by
  intro h
  have hlen := congrArg String.length h
  rw [String.length_append] at hlen
  have h4 : String.length ".pub" = 4 := rfl
  omega

/-- Contents observable after the two-file success trace of a creation
function. -/
theorem files_runOps_two (s₀ : DiskState) (c₁ d₁ c₂ d₂ p : String) :
    (runOps s₀ [.tmpNew, .tmpWrite c₁, .tmpMove d₁,
                .tmpNew, .tmpWrite c₂, .tmpMove d₂]).files p
      = if p = d₂ then some c₂ else if p = d₁ then some c₁ else s₀.files p := by
  simp only [runOps, applyOp, str_empty_append]

/-- Contents observable after the trace of an Ed25519/ECDSA creation whose
`encrypt_key` call failed: the public file was moved into place, a fresh
temporary file was acquired, and nothing else happened. -/
theorem files_runOps_pubfail (s₀ : DiskState) (c₁ d₁ p : String) :
    (runOps s₀ [.tmpNew, .tmpWrite c₁, .tmpMove d₁, .tmpNew]).files p
      = if p = d₁ then some c₁ else s₀.files p := by
  simp only [runOps, applyOp, str_empty_append]

/-- With confirmation on, `n` mismatching entry pairs followed by a matching
pair yield the matching value after exactly `n` retry notices. -/
theorem get_password_confirm_retries (c : String) (n : Nat) :
    get_password true (mismatch_pairs n ++ [c, c]) = some (c, n) := by
  induction n with
  | zero =>
      simp only [mismatch_pairs, List.nil_append]
      simp [get_password]
  | succ k ih =>
      simp only [mismatch_pairs, List.cons_append]
      rw [get_password, if_neg (by decide), ih]
      rfl

/-- With confirmation on, an input stream holding no matching entry pair never
produces a password: the retry loop is still running when the stream runs
out, however long it is. -/
theorem get_password_confirm_no_match (n : Nat) :
    get_password true (mismatch_pairs n) = none := by
  induction n with
  | zero => rfl
  | succ k ih =>
      simp only [mismatch_pairs]
      rw [get_password, if_neg (by decide), ih]
      rfl

/-! ## Claim theorems -/

/-- C9: `_get_password` with `confirm = True` returns a password only when two
consecutively entered values match, counting one retry notice per mismatch:
on two different values followed by two matching values it returns the
matching value (never the mismatched one) after one retry notice; after `n`
mismatching pairs and a matching pair it returns the matching value after
exactly `n` retry notices, so there is no maximum attempt count; and on an
input stream of `n` mismatching pairs and nothing else it never returns. -/
theorem get_password_confirm_loop_spec (a b c : String) (n : Nat)
    (hab : a ≠ b) :
    get_password true [a, b, c, c] = some (c, 1) ∧
    get_password true (mismatch_pairs n ++ [c, c]) = some (c, n) ∧
    get_password true (mismatch_pairs n) = none := by
  refine ⟨?_, get_password_confirm_retries c n,
    get_password_confirm_no_match n⟩
  rw [get_password, if_neg hab]
  rw [get_password, if_pos rfl]
  rfl

/-- C9 witness: the confirmation loop on the concrete stream
`["a", "b", "x", "x"]` rejects the mismatched pair and accepts `"x"`, and the
two-retry and no-match facts hold at `n = 2`. -/
theorem get_password_confirm_loop_spec_witness :
    get_password true ["a", "b", "x", "x"] = some ("x", 1) ∧
    get_password true (mismatch_pairs 2 ++ ["x", "x"]) = some ("x", 2) ∧
    get_password true (mismatch_pairs 2) = none :=
  get_password_confirm_loop_spec "a" "b" "x" 2 (by decide)

/-- C1 (code bug evaluation): each of the three key-creation entry points,
invoked with `password = None`, issues its interactive prompt with
`confirm = false`, and `_get_password` with `confirm = false` returns the
first entered value at once — no second prompt, no matching requirement —
even when the next entry differs.  The claimed mandatory confirmation on
the creation path therefore does not happen. -/
theorem creation_prompts_skip_confirmation :
    (generate_and_write_rsa_keypair demoFormats "/w" demoRsaKey demoEncPem
        "pw" none 3072 none).prompts.map PromptCall.confirm = [false] ∧
    (generate_and_write_ed25519_keypair demoFormats "/w" demoEdKey
        demoEncryptKey "pw" none none).prompts.map PromptCall.confirm
      = [false] ∧
    (generate_and_write_ecdsa_keypair demoFormats "/w" demoEcKey
        demoEncryptKey "pw" none none).prompts.map PromptCall.confirm
      = [false] ∧
    get_password false ["first", "different"] = some ("first", 0) :=
  ⟨rfl, rfl, rfl, rfl⟩

/-- C2 counterexample: creating an Ed25519 keypair with the resolved password
equal to the empty string still routes the private payload through the
external `encrypt_key` primitive — the private file ends up holding the
output of the encryption call made with the empty password, which differs
from the plaintext private key material. -/
theorem ed25519_empty_password_still_encrypts :
    (runOps emptyDisk (generate_and_write_ed25519_keypair demoFormats "/w"
        demoEdKey demoEncryptKey "unused" (some "/w/k")
        (some "")).ops).files "/w/k"
      = some "ENC(EDPRIV,)" ∧
    "ENC(EDPRIV,)" ≠ demoEdKey.keyval.privatePart :=
  ⟨rfl, by decide⟩

/-- C2 amended: for RSA creation an empty resolved password skips the
encryption step (the written private payload is the plaintext private PEM,
identically for every encryption primitive supplied) and a non-empty
resolved password writes the `create_rsa_encrypted_pem` output; for Ed25519
and ECDSA creation the private payload always passes through the external
`encrypt_key` with the resolved password — including the empty one — so
their private file holds the `encrypt_key` output in every case. -/
theorem private_payload_encryption_policy
    (fmts : Formats) (cwd : String) (rsa_key ed_key ec_key : KeyDict)
    (encPem encPem2 : String → String → Except Err String)
    (encKey : KeyDict → String → Except Err String)
    (prompted : String) (fp0 : Option String) (bits : Nat)
    (p pw rsaOut edOut ecOut : String) (s₀ : DiskState)
    (hbits : fmts.rsakeybits_ok bits = true)
    (hpathR : fmts.path_ok (effective_filepath cwd rsa_key.keyid fp0) = true)
    (hpathE : fmts.path_ok (effective_filepath cwd ed_key.keyid fp0) = true)
    (hpathC : fmts.path_ok (effective_filepath cwd ec_key.keyid fp0) = true)
    (hpwE : fmts.password_ok "" = true)
    (hpwP : fmts.password_ok p = true)
    (hpwW : fmts.password_ok pw = true)
    (hp : p.length ≠ 0)
    (hencR : encPem rsa_key.keyval.privatePart p = .ok rsaOut)
    (hencE : encKey ed_key pw = .ok edOut)
    (hencC : encKey ec_key pw = .ok ecOut) :
    (runOps s₀ (generate_and_write_rsa_keypair fmts cwd rsa_key encPem
        prompted fp0 bits (some "")).ops).files
        (effective_filepath cwd rsa_key.keyid fp0)
      = some rsa_key.keyval.privatePart ∧
    generate_and_write_rsa_keypair fmts cwd rsa_key encPem prompted fp0
        bits (some "")
      = generate_and_write_rsa_keypair fmts cwd rsa_key encPem2 prompted fp0
        bits (some "") ∧
    (runOps s₀ (generate_and_write_rsa_keypair fmts cwd rsa_key encPem
        prompted fp0 bits (some p)).ops).files
        (effective_filepath cwd rsa_key.keyid fp0)
      = some rsaOut ∧
    (runOps s₀ (generate_and_write_ed25519_keypair fmts cwd ed_key encKey
        prompted fp0 (some pw)).ops).files
        (effective_filepath cwd ed_key.keyid fp0)
      = some edOut ∧
    (runOps s₀ (generate_and_write_ecdsa_keypair fmts cwd ec_key encKey
        prompted fp0 (some pw)).ops).files
        (effective_filepath cwd ec_key.keyid fp0)
      = some ecOut := by
  refine ⟨?_, ?_, ?_, ?_, ?_⟩
  · simp only [generate_and_write_rsa_keypair, hbits, hpathR, hpwE,
      Option.getD, if_true, String.length_empty, ne_eq, not_true_eq_false,
      if_false]
    rw [files_runOps_two, if_pos rfl]
  · simp only [generate_and_write_rsa_keypair, hbits, hpathR, hpwE,
      Option.getD, if_true]
    rw [if_neg (by simp), if_neg (by simp)]
  · simp only [generate_and_write_rsa_keypair, hbits, hpathR, hpwP,
      Option.getD, if_true]
    rw [if_pos hp, hencR]
    rw [files_runOps_two, if_pos rfl]
  · simp only [generate_and_write_ed25519_keypair, hpathE, hpwW,
      Option.getD, if_true, hencE, List.cons_append, List.nil_append]
    rw [files_runOps_two, if_pos rfl]
  · simp only [generate_and_write_ecdsa_keypair, hpathC, hpwW,
      Option.getD, if_true, hencC, List.cons_append, List.nil_append]
    rw [files_runOps_two, if_pos rfl]

/-- C2 amended, witness: the amended claim at concrete inputs, with the
Ed25519/ECDSA password resolved to the empty string. -/
theorem private_payload_encryption_policy_witness :
    (runOps emptyDisk (generate_and_write_rsa_keypair demoFormats "/w"
        demoRsaKey demoEncPem "z" (some "/w/k") 3072 (some "")).ops).files
        (effective_filepath "/w" demoRsaKey.keyid (some "/w/k"))
      = some demoRsaKey.keyval.privatePart ∧
    generate_and_write_rsa_keypair demoFormats "/w" demoRsaKey demoEncPem
        "z" (some "/w/k") 3072 (some "")
      = generate_and_write_rsa_keypair demoFormats "/w" demoRsaKey
        (fun _ _ => .ok "OTHER") "z" (some "/w/k") 3072 (some "") ∧
    (runOps emptyDisk (generate_and_write_rsa_keypair demoFormats "/w"
        demoRsaKey demoEncPem "z" (some "/w/k") 3072 (some "p")).ops).files
        (effective_filepath "/w" demoRsaKey.keyid (some "/w/k"))
      = some "RSAENC(RSAPRIV,p)" ∧
    (runOps emptyDisk (generate_and_write_ed25519_keypair demoFormats "/w"
        demoEdKey demoEncryptKey "z" (some "/w/k") (some "")).ops).files
        (effective_filepath "/w" demoEdKey.keyid (some "/w/k"))
      = some "ENC(EDPRIV,)" ∧
    (runOps emptyDisk (generate_and_write_ecdsa_keypair demoFormats "/w"
        demoEcKey demoEncryptKey "z" (some "/w/k") (some "")).ops).files
        (effective_filepath "/w" demoEcKey.keyid (some "/w/k"))
      = some "ENC(ECPRIV,)" :=
  private_payload_encryption_policy demoFormats "/w" demoRsaKey demoEdKey
    demoEcKey demoEncPem (fun _ _ => .ok "OTHER") demoEncryptKey "z"
    (some "/w/k") 3072 "p" "" "RSAENC(RSAPRIV,p)" "ENC(EDPRIV,)"
    "ENC(ECPRIV,)" emptyDisk rfl rfl rfl rfl rfl rfl rfl (by decide)
    rfl rfl rfl

/-- C3 counterexample: when the PEM import primitive recovers a key whose
keytype is `ed25519` (not `rsa`), `import_rsa_privatekey_from_file` raises no
format error and returns the key object unchanged — the RSA private import
performs no keytype comparison. -/
theorem rsa_import_skips_keytype_check :
    (import_rsa_privatekey_from_file demoFormats "PEMDATA"
        (fun _ _ _ => .ok demoEdKey) "x" "/w/k" (some "secret")
        "rsassa-pss-sha256").2 = .ok demoEdKey ∧
    demoEdKey.keytype ≠ "rsa" :=
  ⟨rfl, by decide⟩

/-- C3 amended: the Ed25519 and ECDSA private-key imports compare the
recovered keytype against the type their routine expects and, on mismatch,
raise a format error whose message names the unexpected type found,
returning no key object; the RSA private-key import performs no such
comparison and returns whatever key object the external PEM import
primitive produced. -/
theorem import_keytype_validation
    (fmts : Formats) (hash_algs : List String) (fc : String)
    (dk : String → String → Except Err KeyDict)
    (imp : String → String → Option String → Except Err KeyDict)
    (prompted fpath scheme p : String) (k : KeyDict)
    (hpath : fmts.path_ok fpath = true)
    (hscheme : fmts.rsa_scheme_ok scheme = true)
    (hpw : fmts.password_ok p = true)
    (hdk : dk fc p = .ok k)
    (hked : k.keytype ≠ "ed25519")
    (hkec : k.keytype ≠ "ecdsa-sha2-nistp256") :
    (import_ed25519_privatekey_from_file fmts hash_algs fc dk prompted
        fpath (some p)).2
      = .error (.formatError ("Invalid key type loaded: " ++ k.keytype)) ∧
    (import_ecdsa_privatekey_from_file fmts hash_algs fc dk prompted
        fpath (some p)).2
      = .error (.formatError ("Invalid key type loaded: " ++ k.keytype)) ∧
    (import_rsa_privatekey_from_file fmts fc imp prompted fpath (some p)
        scheme).2
      = imp fc scheme (if p.length ≠ 0 then some p else none) := by
  refine ⟨?_, ?_, ?_⟩
  · simp only [import_ed25519_privatekey_from_file, hpath, hpw,
      Option.getD, if_true, hdk]
    rw [if_pos hked]
  · simp only [import_ecdsa_privatekey_from_file, hpath, hpw,
      Option.getD, if_true, hdk]
    rw [if_pos hkec]
  · simp only [import_rsa_privatekey_from_file, hpath, hscheme, hpw,
      Option.getD, if_true]
    by_cases hl : p.length ≠ 0
    · rw [if_pos hl, if_pos hl]
    · rw [if_neg hl, if_neg hl]

/-- C3 amended, witness: a recovered key of keytype `rsa` is rejected by both
the Ed25519 and the ECDSA import with a format error naming `rsa`, while the
RSA import hands back the primitive's result. -/
theorem import_keytype_validation_witness :
    (import_ed25519_privatekey_from_file demoFormats ["sha256"] "CT"
        (fun _ _ => .ok demoRsaKey) "x" "/w/k" (some "s")).2
      = .error (.formatError ("Invalid key type loaded: "
          ++ demoRsaKey.keytype)) ∧
    (import_ecdsa_privatekey_from_file demoFormats ["sha256"] "CT"
        (fun _ _ => .ok demoRsaKey) "x" "/w/k" (some "s")).2
      = .error (.formatError ("Invalid key type loaded: "
          ++ demoRsaKey.keytype)) ∧
    (import_rsa_privatekey_from_file demoFormats "CT" demoImportPem "x"
        "/w/k" (some "s") "rsassa-pss-sha256").2
      = demoImportPem "CT" "rsassa-pss-sha256"
          (if ("s" : String).length ≠ 0 then some "s" else none) :=
  import_keytype_validation demoFormats ["sha256"] "CT"
    (fun _ _ => .ok demoRsaKey) demoImportPem "x" "/w/k"
    "rsassa-pss-sha256" "s" demoRsaKey rfl rfl rfl rfl (by decide)
    (by decide)

/-- C4 counterexample: importing an Ed25519 private key with the resolved
password equal to the empty string still invokes the external `decrypt_key`
on the file contents (with that empty password): the returned key object is
the decryption primitive's output, whose private part here records that it
was produced by a decryption call made with the empty password — not a
direct parse of the file as an unencrypted key. -/
theorem ed25519_import_empty_password_still_decrypts :
    (import_ed25519_privatekey_from_file demoFormats ["sha256"] "CIPHERTEXT"
        demoDecryptKey "x" "/w/k" (some "")).2
      = .ok ⟨⟨"ed25519", "ed25519", "rided",
          ⟨"CIPHERTEXT", "decrypted-with:"⟩⟩, ["sha256"]⟩ :=
  rfl

/-- C4 amended: the RSA private import parses the file as an unencrypted PEM
(passing `password = None` to the import primitive) exactly when the resolved
password is empty, and passes the password for decryption when it is
non-empty; the Ed25519 and ECDSA private imports always hand the file
contents to the external `decrypt_key` together with the resolved password,
including the empty one. -/
theorem import_decryption_policy
    (fmts : Formats) (hash_algs : List String) (fc : String)
    (dkEd dkEc : String → String → Except Err KeyDict)
    (imp : String → String → Option String → Except Err KeyDict)
    (prompted fpath scheme p q : String) (kEd kEc : KeyDict)
    (hpath : fmts.path_ok fpath = true)
    (hscheme : fmts.rsa_scheme_ok scheme = true)
    (hpwE : fmts.password_ok "" = true)
    (hpwP : fmts.password_ok p = true)
    (hpwQ : fmts.password_ok q = true)
    (hp : p.length ≠ 0)
    (hdkEd : dkEd fc q = .ok kEd) (hkEd : kEd.keytype = "ed25519")
    (hdkEc : dkEc fc q = .ok kEc)
    (hkEc : kEc.keytype = "ecdsa-sha2-nistp256") :
    (import_rsa_privatekey_from_file fmts fc imp prompted fpath (some "")
        scheme).2
      = imp fc scheme none ∧
    (import_rsa_privatekey_from_file fmts fc imp prompted fpath (some p)
        scheme).2
      = imp fc scheme (some p) ∧
    (import_ed25519_privatekey_from_file fmts hash_algs fc dkEd prompted
        fpath (some q)).2
      = .ok ⟨kEd, hash_algs⟩ ∧
    (import_ecdsa_privatekey_from_file fmts hash_algs fc dkEc prompted
        fpath (some q)).2
      = .ok ⟨kEc, hash_algs⟩ := by
  refine ⟨?_, ?_, ?_, ?_⟩
  · simp only [import_rsa_privatekey_from_file, hpath, hscheme, hpwE,
      Option.getD, if_true, String.length_empty, ne_eq, not_true_eq_false]
    rw [if_neg (by simp)]
  · simp only [import_rsa_privatekey_from_file, hpath, hscheme, hpwP,
      Option.getD, if_true]
    rw [if_pos hp]
  · simp only [import_ed25519_privatekey_from_file, hpath, hpwQ,
      Option.getD, if_true, hdkEd]
    rw [if_neg (by rw [hkEd]; exact fun h => h rfl)]
  · simp only [import_ecdsa_privatekey_from_file, hpath, hpwQ,
      Option.getD, if_true, hdkEc]
    rw [if_neg (by rw [hkEc]; exact fun h => h rfl)]

/-- C4 amended, witness: the amended claim at concrete inputs, with the
Ed25519/ECDSA imports run on the empty resolved password. -/
theorem import_decryption_policy_witness :
    (import_rsa_privatekey_from_file demoFormats "CT" demoImportPem "x"
        "/w/k" (some "") "rsassa-pss-sha256").2
      = demoImportPem "CT" "rsassa-pss-sha256" none ∧
    (import_rsa_privatekey_from_file demoFormats "CT" demoImportPem "x"
        "/w/k" (some "p") "rsassa-pss-sha256").2
      = demoImportPem "CT" "rsassa-pss-sha256" (some "p") ∧
    (import_ed25519_privatekey_from_file demoFormats ["sha256"] "CT"
        demoDecryptKey "x" "/w/k" (some "")).2
      = .ok ⟨⟨"ed25519", "ed25519", "rided", ⟨"CT", "decrypted-with:"⟩⟩,
          ["sha256"]⟩ ∧
    (import_ecdsa_privatekey_from_file demoFormats ["sha256"] "CT"
        demoDecryptKeyEc "x" "/w/k" (some "")).2
      = .ok ⟨⟨"ecdsa-sha2-nistp256", "ecdsa-sha2-nistp256", "ridec",
          ⟨"CT", "decrypted-with:"⟩⟩, ["sha256"]⟩ :=
  import_decryption_policy demoFormats ["sha256"] "CT" demoDecryptKey
    demoDecryptKeyEc demoImportPem "x" "/w/k" "rsassa-pss-sha256" "p" ""
    ⟨"ed25519", "ed25519", "rided", ⟨"CT", "decrypted-with:"⟩⟩
    ⟨"ecdsa-sha2-nistp256", "ecdsa-sha2-nistp256", "ridec",
      ⟨"CT", "decrypted-with:"⟩⟩
    rfl rfl rfl rfl rfl (by decide) rfl rfl rfl rfl

theorem atomicAt_nil (prompts : List PromptCall) (res : Except Err String)
    (s₀ : DiskState) (p : String) : AtomicAt ⟨prompts, [], res⟩ s₀ p :=
  Or.inl rfl

theorem atomicAt_two (prompts : List PromptCall) (res : Except Err String)
    (s₀ : DiskState) (p c₁ d₁ c₂ d₂ : String) :
    AtomicAt ⟨prompts, [.tmpNew, .tmpWrite c₁, .tmpMove d₁,
                        .tmpNew, .tmpWrite c₂, .tmpMove d₂], res⟩ s₀ p := by
  unfold AtomicAt
  by_cases h2 : p = d₂
  · right
    refine ⟨c₂, ?_, ?_⟩
    · rw [files_runOps_two, if_pos h2]
    · subst h2
      exact ⟨[.tmpNew, .tmpWrite c₁, .tmpMove d₁], [], rfl⟩
  · by_cases h1 : p = d₁
    · right
      refine ⟨c₁, ?_, ?_⟩
      · rw [files_runOps_two, if_neg h2, if_pos h1]
      · subst h1
        exact ⟨[], [.tmpNew, .tmpWrite c₂, .tmpMove d₂], rfl⟩
    · left
      rw [files_runOps_two, if_neg h2, if_neg h1]

theorem atomicAt_pubfail (prompts : List PromptCall)
    (res : Except Err String) (s₀ : DiskState) (p c₁ d₁ : String) :
    AtomicAt ⟨prompts, [.tmpNew, .tmpWrite c₁, .tmpMove d₁, .tmpNew],
      res⟩ s₀ p := by
  unfold AtomicAt
  by_cases h1 : p = d₁
  · right
    refine ⟨c₁, ?_, ?_⟩
    · rw [files_runOps_pubfail, if_pos h1]
    · subst h1
      exact ⟨[], [.tmpNew], rfl⟩
  · left
    rw [files_runOps_pubfail, if_neg h1]

/-- C5: every file write of the key-creation functions goes through a full
write-to-temporary-then-rename sequence, so after any run — error or success,
for every choice of validators, primitives and inputs — each path either
kept its prior contents or holds exactly the complete contents of one such
atomic installation; no partially written key file is ever observable at any
destination. -/
theorem creation_writes_are_atomic
    (fmts : Formats) (cwd : String) (rsa_key ed_key : KeyDict)
    (encPem : String → String → Except Err String)
    (encKey : KeyDict → String → Except Err String)
    (prompted : String) (fp0 : Option String) (bits : Nat)
    (password : Option String) (s₀ : DiskState) (p : String) :
    AtomicAt (generate_and_write_rsa_keypair fmts cwd rsa_key encPem
      prompted fp0 bits password) s₀ p ∧
    AtomicAt (generate_and_write_ed25519_keypair fmts cwd ed_key encKey
      prompted fp0 password) s₀ p := by
  constructor
  · simp only [generate_and_write_rsa_keypair]
    split
    · split
      · split
        · split
          · exact atomicAt_nil _ _ _ _
          · exact atomicAt_two _ _ _ _ _ _ _ _
        · exact atomicAt_nil _ _ _ _
      · exact atomicAt_nil _ _ _ _
    · exact atomicAt_nil _ _ _ _
  · simp only [generate_and_write_ed25519_keypair, List.cons_append,
      List.nil_append]
    split
    · split
      · split
        · exact atomicAt_pubfail _ _ _ _ _ _
        · exact atomicAt_two _ _ _ _ _ _ _ _
      · exact atomicAt_nil _ _ _ _
    · exact atomicAt_nil _ _ _ _

/-- C6: in the Ed25519 and ECDSA creation paths the public `.pub` file is
renamed into its final place before `encrypt_key` runs; when `encrypt_key`
raises a cryptographic error the call fails with that error, the `.pub`
file already present at its final path with the full public payload, while
the private destination `<filepath>` is untouched (in particular it does not
exist if it did not exist before). -/
theorem public_written_before_private_encryption
    (fmts : Formats) (cwd : String) (ed_key ec_key : KeyDict)
    (encKey : KeyDict → String → Except Err String)
    (prompted : String) (fp0 : Option String) (p : String) (e1 e2 : Err)
    (s₀ : DiskState)
    (hpathE : fmts.path_ok (effective_filepath cwd ed_key.keyid fp0) = true)
    (hpathC : fmts.path_ok (effective_filepath cwd ec_key.keyid fp0) = true)
    (hpw : fmts.password_ok p = true)
    (hencE : encKey ed_key p = .error e1)
    (hencC : encKey ec_key p = .error e2) :
    ((generate_and_write_ed25519_keypair fmts cwd ed_key encKey prompted
        fp0 (some p)).result = .error e1 ∧
      (runOps s₀ (generate_and_write_ed25519_keypair fmts cwd ed_key encKey
          prompted fp0 (some p)).ops).files
          (effective_filepath cwd ed_key.keyid fp0 ++ ".pub")
        = some (json_dumps (format_keyval_to_metadata ed_key.keytype
            ed_key.scheme ed_key.keyval)) ∧
      (runOps s₀ (generate_and_write_ed25519_keypair fmts cwd ed_key encKey
          prompted fp0 (some p)).ops).files
          (effective_filepath cwd ed_key.keyid fp0)
        = s₀.files (effective_filepath cwd ed_key.keyid fp0)) ∧
    ((generate_and_write_ecdsa_keypair fmts cwd ec_key encKey prompted
        fp0 (some p)).result = .error e2 ∧
      (runOps s₀ (generate_and_write_ecdsa_keypair fmts cwd ec_key encKey
          prompted fp0 (some p)).ops).files
          (effective_filepath cwd ec_key.keyid fp0 ++ ".pub")
        = some (json_dumps (format_keyval_to_metadata ec_key.keytype
            ec_key.scheme ec_key.keyval)) ∧
      (runOps s₀ (generate_and_write_ecdsa_keypair fmts cwd ec_key encKey
          prompted fp0 (some p)).ops).files
          (effective_filepath cwd ec_key.keyid fp0)
        = s₀.files (effective_filepath cwd ec_key.keyid fp0)) := by
  refine ⟨⟨?_, ?_, ?_⟩, ⟨?_, ?_, ?_⟩⟩
  · simp only [generate_and_write_ed25519_keypair, hpathE, hpw,
      Option.getD, if_true, hencE, List.cons_append, List.nil_append]
  · simp only [generate_and_write_ed25519_keypair, hpathE, hpw,
      Option.getD, if_true, hencE, List.cons_append, List.nil_append]
    rw [files_runOps_pubfail, if_pos rfl]
  · simp only [generate_and_write_ed25519_keypair, hpathE, hpw,
      Option.getD, if_true, hencE, List.cons_append, List.nil_append]
    rw [files_runOps_pubfail,
      if_neg (fun h => append_pub_ne _ h.symm)]
  · simp only [generate_and_write_ecdsa_keypair, hpathC, hpw,
      Option.getD, if_true, hencC, List.cons_append, List.nil_append]
  · simp only [generate_and_write_ecdsa_keypair, hpathC, hpw,
      Option.getD, if_true, hencC, List.cons_append, List.nil_append]
    rw [files_runOps_pubfail, if_pos rfl]
  · simp only [generate_and_write_ecdsa_keypair, hpathC, hpw,
      Option.getD, if_true, hencC, List.cons_append, List.nil_append]
    rw [files_runOps_pubfail,
      if_neg (fun h => append_pub_ne _ h.symm)]

/-- C6 witness: with an `encrypt_key` that always fails, the concrete
Ed25519/ECDSA creation calls error out leaving `.pub` written and the
private path absent on an empty disk. -/
theorem public_written_before_private_encryption_witness :
    ((generate_and_write_ed25519_keypair demoFormats "/w" demoEdKey
        (fun _ _ => .error (.cryptoError "boom")) "z" (some "/w/k")
        (some "p")).result = .error (.cryptoError "boom") ∧
      (runOps emptyDisk (generate_and_write_ed25519_keypair demoFormats "/w"
          demoEdKey (fun _ _ => .error (.cryptoError "boom")) "z"
          (some "/w/k") (some "p")).ops).files
          (effective_filepath "/w" demoEdKey.keyid (some "/w/k") ++ ".pub")
        = some (json_dumps (format_keyval_to_metadata demoEdKey.keytype
            demoEdKey.scheme demoEdKey.keyval)) ∧
      (runOps emptyDisk (generate_and_write_ed25519_keypair demoFormats "/w"
          demoEdKey (fun _ _ => .error (.cryptoError "boom")) "z"
          (some "/w/k") (some "p")).ops).files
          (effective_filepath "/w" demoEdKey.keyid (some "/w/k"))
        = emptyDisk.files (effective_filepath "/w" demoEdKey.keyid
            (some "/w/k"))) ∧
    ((generate_and_write_ecdsa_keypair demoFormats "/w" demoEcKey
        (fun _ _ => .error (.cryptoError "boom")) "z" (some "/w/k")
        (some "p")).result = .error (.cryptoError "boom") ∧
      (runOps emptyDisk (generate_and_write_ecdsa_keypair demoFormats "/w"
          demoEcKey (fun _ _ => .error (.cryptoError "boom")) "z"
          (some "/w/k") (some "p")).ops).files
          (effective_filepath "/w" demoEcKey.keyid (some "/w/k") ++ ".pub")
        = some (json_dumps (format_keyval_to_metadata demoEcKey.keytype
            demoEcKey.scheme demoEcKey.keyval)) ∧
      (runOps emptyDisk (generate_and_write_ecdsa_keypair demoFormats "/w"
          demoEcKey (fun _ _ => .error (.cryptoError "boom")) "z"
          (some "/w/k") (some "p")).ops).files
          (effective_filepath "/w" demoEcKey.keyid (some "/w/k"))
        = emptyDisk.files (effective_filepath "/w" demoEcKey.keyid
            (some "/w/k"))) :=
  public_written_before_private_encryption demoFormats "/w" demoEdKey
    demoEcKey (fun _ _ => .error (.cryptoError "boom")) "z" (some "/w/k")
    "p" (.cryptoError "boom") (.cryptoError "boom") emptyDisk
    rfl rfl rfl rfl rfl

/-- C7: when the caller omits the filepath (`None` or the empty string —
both falsy in the source's `if not filepath`), the key files are written to
`<cwd>/<keyid>` and `<cwd>/<keyid>.pub`, where `keyid` is the generated
key's identifier, and the function returns the private-key filepath actually
used, namely `<cwd>/<keyid>`.  Shown for the RSA creation (run with the
empty password, so the plaintext private PEM is written) and the Ed25519
creation (whose private payload is the `encrypt_key` output). -/
theorem default_filepath_is_cwd_keyid
    (fmts : Formats) (cwd : String) (rsa_key ed_key : KeyDict)
    (encPem : String → String → Except Err String)
    (encKey : KeyDict → String → Except Err String)
    (prompted : String) (fp0 : Option String) (bits : Nat) (edOut : String)
    (s₀ : DiskState)
    (hfp : fp0 = none ∨ fp0 = some "")
    (hbits : fmts.rsakeybits_ok bits = true)
    (hpathR : fmts.path_ok (cwd ++ "/" ++ rsa_key.keyid) = true)
    (hpathE : fmts.path_ok (cwd ++ "/" ++ ed_key.keyid) = true)
    (hpw : fmts.password_ok "" = true)
    (hencE : encKey ed_key "" = .ok edOut) :
    ((generate_and_write_rsa_keypair fmts cwd rsa_key encPem prompted fp0
        bits (some "")).result = .ok (cwd ++ "/" ++ rsa_key.keyid) ∧
      (runOps s₀ (generate_and_write_rsa_keypair fmts cwd rsa_key encPem
          prompted fp0 bits (some "")).ops).files
          (cwd ++ "/" ++ rsa_key.keyid)
        = some rsa_key.keyval.privatePart ∧
      (runOps s₀ (generate_and_write_rsa_keypair fmts cwd rsa_key encPem
          prompted fp0 bits (some "")).ops).files
          (cwd ++ "/" ++ rsa_key.keyid ++ ".pub")
        = some rsa_key.keyval.publicPart) ∧
    ((generate_and_write_ed25519_keypair fmts cwd ed_key encKey prompted
        fp0 (some "")).result = .ok (cwd ++ "/" ++ ed_key.keyid) ∧
      (runOps s₀ (generate_and_write_ed25519_keypair fmts cwd ed_key encKey
          prompted fp0 (some "")).ops).files (cwd ++ "/" ++ ed_key.keyid)
        = some edOut ∧
      (runOps s₀ (generate_and_write_ed25519_keypair fmts cwd ed_key encKey
          prompted fp0 (some "")).ops).files
          (cwd ++ "/" ++ ed_key.keyid ++ ".pub")
        = some (json_dumps (format_keyval_to_metadata ed_key.keytype
            ed_key.scheme ed_key.keyval))) := by
  have hfpR : effective_filepath cwd rsa_key.keyid fp0
      = cwd ++ "/" ++ rsa_key.keyid := by
    rcases hfp with rfl | rfl <;> simp [effective_filepath]
  have hfpE : effective_filepath cwd ed_key.keyid fp0
      = cwd ++ "/" ++ ed_key.keyid := by
    rcases hfp with rfl | rfl <;> simp [effective_filepath]
  rcases hfp with rfl | rfl <;>
  · refine ⟨⟨?_, ?_, ?_⟩, ⟨?_, ?_, ?_⟩⟩ <;>
      simp only [generate_and_write_rsa_keypair,
        generate_and_write_ed25519_keypair, hfpR, hfpE, hbits, hpathR,
        hpathE, hpw, Option.getD, if_true, hencE,
        String.length_empty, ne_eq, not_true_eq_false, if_false,
        List.cons_append, List.nil_append]
    · rw [files_runOps_two, if_pos rfl]
    · rw [files_runOps_two, if_neg (append_pub_ne _), if_pos rfl]
    · rw [files_runOps_two, if_pos rfl]
    · rw [files_runOps_two, if_neg (append_pub_ne _), if_pos rfl]

/-- C7 witness: with the filepath omitted (`None`), the concrete RSA and
Ed25519 creation calls write to `/cwd/<keyid>` and `/cwd/<keyid>.pub` and
return `/cwd/<keyid>`. -/
theorem default_filepath_is_cwd_keyid_witness :
    ((generate_and_write_rsa_keypair demoFormats "/cwd" demoRsaKey
        demoEncPem "z" none 3072 (some "")).result
        = .ok ("/cwd" ++ "/" ++ demoRsaKey.keyid) ∧
      (runOps emptyDisk (generate_and_write_rsa_keypair demoFormats "/cwd"
          demoRsaKey demoEncPem "z" none 3072 (some "")).ops).files
          ("/cwd" ++ "/" ++ demoRsaKey.keyid)
        = some demoRsaKey.keyval.privatePart ∧
      (runOps emptyDisk (generate_and_write_rsa_keypair demoFormats "/cwd"
          demoRsaKey demoEncPem "z" none 3072 (some "")).ops).files
          ("/cwd" ++ "/" ++ demoRsaKey.keyid ++ ".pub")
        = some demoRsaKey.keyval.publicPart) ∧
    ((generate_and_write_ed25519_keypair demoFormats "/cwd" demoEdKey
        demoEncryptKey "z" none (some "")).result
        = .ok ("/cwd" ++ "/" ++ demoEdKey.keyid) ∧
      (runOps emptyDisk (generate_and_write_ed25519_keypair demoFormats
          "/cwd" demoEdKey demoEncryptKey "z" none (some "")).ops).files
          ("/cwd" ++ "/" ++ demoEdKey.keyid)
        = some "ENC(EDPRIV,)" ∧
      (runOps emptyDisk (generate_and_write_ed25519_keypair demoFormats
          "/cwd" demoEdKey demoEncryptKey "z" none (some "")).ops).files
          ("/cwd" ++ "/" ++ demoEdKey.keyid ++ ".pub")
        = some (json_dumps (format_keyval_to_metadata demoEdKey.keytype
            demoEdKey.scheme demoEdKey.keyval))) :=
  default_filepath_is_cwd_keyid demoFormats "/cwd" demoRsaKey demoEdKey
    demoEncPem demoEncryptKey "z" none 3072 "ENC(EDPRIV,)" emptyDisk
    (Or.inl rfl) rfl rfl rfl rfl rfl

/-- C8: a caller-supplied password — including the empty string — is used
as-is with no interactive prompt: the run is identical for every value the
interactive session could have produced and records no prompt call; only the
absent marker (`None`) triggers prompting, recording exactly one prompt
call.  Shown for a creation entry point (RSA) and an import entry point
(Ed25519), per the claim's sources. -/
theorem explicit_password_used_verbatim
    (fmts : Formats) (cwd : String) (rsa_key : KeyDict)
    (encPem : String → String → Except Err String)
    (hash_algs : List String) (fc : String)
    (dk : String → String → Except Err KeyDict)
    (x y : String) (fp0 : Option String) (bits : Nat) (p fpath : String)
    (hbits : fmts.rsakeybits_ok bits = true)
    (hpathR : fmts.path_ok (effective_filepath cwd rsa_key.keyid fp0) = true)
    (hpathI : fmts.path_ok fpath = true) :
    generate_and_write_rsa_keypair fmts cwd rsa_key encPem x fp0 bits
        (some p)
      = generate_and_write_rsa_keypair fmts cwd rsa_key encPem y fp0 bits
        (some p) ∧
    (generate_and_write_rsa_keypair fmts cwd rsa_key encPem x fp0 bits
        (some p)).prompts = [] ∧
    import_ed25519_privatekey_from_file fmts hash_algs fc dk x fpath
        (some p)
      = import_ed25519_privatekey_from_file fmts hash_algs fc dk y fpath
        (some p) ∧
    (import_ed25519_privatekey_from_file fmts hash_algs fc dk x fpath
        (some p)).1 = [] ∧
    (generate_and_write_rsa_keypair fmts cwd rsa_key encPem x fp0 bits
        none).prompts.map PromptCall.confirm = [false] ∧
    (import_ed25519_privatekey_from_file fmts hash_algs fc dk x fpath
        none).1.map PromptCall.confirm = [false] := by
  refine ⟨rfl, ?_, rfl, ?_, ?_, ?_⟩
  · simp only [generate_and_write_rsa_keypair]
    repeat' split
    all_goals rfl
  · simp only [import_ed25519_privatekey_from_file, hpathI, if_true]
    repeat' split
    all_goals rfl
  · simp only [generate_and_write_rsa_keypair, hbits, hpathR, if_true]
    repeat' split
    all_goals rfl
  · simp only [import_ed25519_privatekey_from_file, hpathI, if_true]
    repeat' split
    all_goals rfl

/-- C8 witness: at the concrete explicit password `""` (the empty string) no
prompt occurs and the run ignores the hypothetical interactive entries,
while `None` triggers exactly one (unconfirmed) prompt. -/
theorem explicit_password_used_verbatim_witness :
    generate_and_write_rsa_keypair demoFormats "/w" demoRsaKey demoEncPem
        "xx" (some "/w/k") 3072 (some "")
      = generate_and_write_rsa_keypair demoFormats "/w" demoRsaKey
        demoEncPem "yy" (some "/w/k") 3072 (some "") ∧
    (generate_and_write_rsa_keypair demoFormats "/w" demoRsaKey demoEncPem
        "xx" (some "/w/k") 3072 (some "")).prompts = [] ∧
    import_ed25519_privatekey_from_file demoFormats ["sha256"] "CT"
        demoDecryptKey "xx" "/w/k" (some "")
      = import_ed25519_privatekey_from_file demoFormats ["sha256"] "CT"
        demoDecryptKey "yy" "/w/k" (some "") ∧
    (import_ed25519_privatekey_from_file demoFormats ["sha256"] "CT"
        demoDecryptKey "xx" "/w/k" (some "")).1 = [] ∧
    (generate_and_write_rsa_keypair demoFormats "/w" demoRsaKey demoEncPem
        "xx" (some "/w/k") 3072 none).prompts.map PromptCall.confirm
      = [false] ∧
    (import_ed25519_privatekey_from_file demoFormats ["sha256"] "CT"
        demoDecryptKey "xx" "/w/k" none).1.map PromptCall.confirm
      = [false] :=
  explicit_password_used_verbatim demoFormats "/w" demoRsaKey demoEncPem
    ["sha256"] "CT" demoDecryptKey "xx" "yy" (some "/w/k") 3072 "" "/w/k"
    rfl rfl rfl

/-- C10: in every run of the creation functions the public artifact at
`<filepath>.pub` is either not touched at all or holds, for RSA, exactly the
public PEM string, and, for Ed25519, exactly the serialized metadata envelope
`{keytype, scheme, keyval: {public}}`; and that envelope is built from the
public half alone — two keyvals that differ only in their private part yield
the same envelope, so no private key material can reach the public file. -/
theorem public_artifact_excludes_private
    (fmts : Formats) (cwd : String) (rsa_key ed_key : KeyDict)
    (encPem : String → String → Except Err String)
    (encKey : KeyDict → String → Except Err String)
    (prompted : String) (fp0 : Option String) (bits : Nat)
    (password : Option String) (s₀ : DiskState)
    (kt sc pub priv1 priv2 : String) :
    ((runOps s₀ (generate_and_write_rsa_keypair fmts cwd rsa_key encPem
        prompted fp0 bits password).ops).files
        (effective_filepath cwd rsa_key.keyid fp0 ++ ".pub")
      = s₀.files (effective_filepath cwd rsa_key.keyid fp0 ++ ".pub") ∨
      (runOps s₀ (generate_and_write_rsa_keypair fmts cwd rsa_key encPem
        prompted fp0 bits password).ops).files
        (effective_filepath cwd rsa_key.keyid fp0 ++ ".pub")
      = some rsa_key.keyval.publicPart) ∧
    ((runOps s₀ (generate_and_write_ed25519_keypair fmts cwd ed_key encKey
        prompted fp0 password).ops).files
        (effective_filepath cwd ed_key.keyid fp0 ++ ".pub")
      = s₀.files (effective_filepath cwd ed_key.keyid fp0 ++ ".pub") ∨
      (runOps s₀ (generate_and_write_ed25519_keypair fmts cwd ed_key encKey
        prompted fp0 password).ops).files
        (effective_filepath cwd ed_key.keyid fp0 ++ ".pub")
      = some (json_dumps (format_keyval_to_metadata ed_key.keytype
          ed_key.scheme ed_key.keyval))) ∧
    format_keyval_to_metadata kt sc ⟨pub, priv1⟩
      = format_keyval_to_metadata kt sc ⟨pub, priv2⟩ := by
  refine ⟨?_, ?_, rfl⟩
  · simp only [generate_and_write_rsa_keypair]
    repeat' split
    all_goals first
      | exact Or.inl rfl
      | (right
         rw [files_runOps_two, if_neg (append_pub_ne _), if_pos rfl])
  · simp only [generate_and_write_ed25519_keypair, List.cons_append,
      List.nil_append]
    repeat' split
    all_goals first
      | exact Or.inl rfl
      | (right
         rw [files_runOps_pubfail, if_pos rfl])
      | (right
         rw [files_runOps_two, if_neg (append_pub_ne _), if_pos rfl])

end SSLib
